import Mathlib

/-!
Verification of the mini MLOps pipeline (`src/run.py`).

The pipeline is embedded shallowly:
* machine floats are modelled as exact rationals (`ℚ`); `NaN` cells are
  modelled with `Option`;
* the filesystem inputs are modelled as small inductive "source" types
  (absent file / malformed file / parsed content);
* Python exceptions become an explicit `Except PipeError` value;
* the wall clock is an explicit pair of rational timestamps.
-/

namespace MLOpsPipeline

/-- Errors raised by the pipeline, tagged by the Python exception class. -/
inductive PipeError
  | fileNotFound (msg : String)
  | valueError (msg : String)
  | typeError (msg : String)
  deriving DecidableEq, Repr

/-- A cell of the tabular input: pandas type-infers each column, so a cell
is either numeric or a leftover string. -/
inductive Value
  | num (q : ℚ)
  | str (s : String)
  deriving DecidableEq, Repr

/-- A scalar of the parsed YAML configuration document. -/
inductive YamlVal
  | yInt (n : ℤ)
  | yStr (s : String)
  deriving DecidableEq, Repr

/-- The parsed tabular input (`pd.read_csv` result): a header naming the
columns and the data rows, in file order. -/
structure DataFrame where
  cols : List String
  rows : List (List Value)
  deriving DecidableEq, Repr

/-- State of the `--input` path: missing file, a file the CSV parser
rejects, or a parsed table. -/
inductive CsvSource
  | absent
  | malformed
  | table (df : DataFrame)
  deriving DecidableEq, Repr

/-- State of the `--config` path: missing file, or a YAML document that
parses to `None` (empty file) or to a mapping (assoc list, first key wins,
as in a Python dict built from YAML). -/
inductive ConfigSource
  | absent
  | parsed (doc : Option (List (String × YamlVal)))
  deriving DecidableEq, Repr

/-- The validated configuration returned by `load_config`
(`run.py:29-54`). `window` is stored as a `ℕ`; the validation only
accepts positive values. -/
structure Config where
  seed : ℤ
  window : ℕ
  version : String
  deriving DecidableEq, Repr

/-! ## Signal engine (`run.py:110` and `run.py:114`) -/

/-- The window of `close` values ending at index `i`:
`close[i-w+1 .. i]`, clipped at the start of the series. -/
def windowSlice (w : ℕ) (close : List ℚ) (i : ℕ) : List ℚ :=
  (close.take (i + 1)).drop (i + 1 - w)

/-- `df["close"].rolling(window=w).mean()` (`run.py:110`): at each index
`i` the mean of the last `w` values when `w` values exist
(`min_periods` defaults to the window size), `NaN` (here `none`) for the
first `w - 1` indices. -/
def rollingMean (w : ℕ) (close : List ℚ) : List (Option ℚ) :=
  (List.range close.length).map fun i =>
    if w ≤ i + 1 then some ((windowSlice w close i).sum / w) else none

/-- `(df["close"] > df["rolling_mean"]).astype(int)` (`run.py:114`).
In pandas a comparison against `NaN` evaluates to `False`, so the
resulting integer column holds `0` (not `NaN`) wherever the rolling mean
is undefined. -/
def signalCol (close : List ℚ) (rm : List (Option ℚ)) : List ℕ :=
  (List.range close.length).map fun i =>
    match rm.getD i none with
    | some m => if m < close.getD i 0 then 1 else 0
    | none => 0

/-- `df["signal"].mean()` (`run.py:118`): the integer signal column has
no nulls, so pandas averages over every row. -/
def signalRate (sig : List ℕ) : ℚ :=
  (sig.sum : ℚ) / sig.length

/-- `round(x, 4)` (`run.py:130`), on exact rationals. -/
def round4 (q : ℚ) : ℚ :=
  (round (q * 10000) : ℤ) / 10000

/-- The average the spec describes for `signal_rate`: the mean of only
the defined signal entries, warm-up rows excluded from numerator and
denominator alike.  (Stated from the spec's words, for comparison with
`signalRate`.) -/
def signalRateSpec (sig : List (Option ℕ)) : ℚ :=
  (((sig.filterMap id).sum : ℚ)) / (sig.filterMap id).length

/-- The signal column the spec describes: `null` wherever the rolling
mean is undefined.  (Stated from the spec's words, for comparison with
`signalCol`.) -/
def signalColSpec (close : List ℚ) (rm : List (Option ℚ)) : List (Option ℕ) :=
  (List.range close.length).map fun i =>
    match rm.getD i none with
    | some m => some (if m < close.getD i 0 then 1 else 0)
    | none => none

/-! ## Config loader (`run.py:29-54`) -/

/-- The `for key in required_keys` loop of `load_config`
(`run.py:41-43`): raise on the first key missing from the parsed
mapping, scanning the fixed list in order. -/
def checkRequiredKeys (m : List (String × YamlVal)) :
    List String → Except PipeError Unit
  | [] => .ok ()
  | k :: ks =>
    if (m.lookup k).isNone then
      .error (.valueError ("Missing config key: " ++ k))
    else checkRequiredKeys m ks

/-- `load_config` (`run.py:29-54`): existence, parse, required keys in
the order `seed`, `window`, `version`, then the three type checks. -/
def load_config (src : ConfigSource) : Except PipeError Config :=
  match src with
  | .absent => .error (.fileNotFound "Config file not found")
  | .parsed none => .error (.valueError "Config file is empty")
  | .parsed (some m) => do
    checkRequiredKeys m ["seed", "window", "version"]
    match m.lookup "seed" with
    | some (.yInt s) =>
      match m.lookup "window" with
      | some (.yInt w) =>
        if w ≤ 0 then .error (.valueError "Window must be positive integer")
        else
          match m.lookup "version" with
          | some (.yStr v) => .ok ⟨s, w.toNat, v⟩
          | _ => .error (.valueError "Version must be string")
      | _ => .error (.valueError "Window must be positive integer")
    | _ => .error (.valueError "Seed must be integer")

/-! ## Data loader (`run.py:57-72`) -/

/-- `load_data` (`run.py:57-72`): existence check, CSV parse, emptiness
check (`df.empty` on a parsing result with at least one column means
zero rows), then the `close` column check, in that order.  No check of
the column's values is performed. -/
def load_data (src : CsvSource) : Except PipeError DataFrame :=
  match src with
  | .absent => .error (.fileNotFound "Input CSV file not found")
  | .malformed => .error (.valueError "Invalid CSV file format")
  | .table df =>
    if df.rows = [] then .error (.valueError "Input CSV file is empty")
    else if "close" ∈ df.cols then .ok df
    else .error (.valueError "Missing required column: close")

/-! ## Main driver (`run.py:85-157`) -/

/-- Reading the `close` column as numbers, as `rolling(...).mean()`
needs (`run.py:110`): pandas raises when the column is not numeric.
The cell of each row at the position of `"close"` in the header. -/
def extractClose (df : DataFrame) : Except PipeError (List ℚ) :=
  match df.cols.indexOf? "close" with
  | none => .error (.typeError "cannot aggregate non-numeric values")
  | some j =>
    match df.rows.mapM (fun (r : List Value) =>
        match r.getD j (.str "") with
        | .num q => some q
        | .str _ => none) with
    | some qs => .ok qs
    | none => .error (.typeError "cannot aggregate non-numeric values")

/-- `np.random.seed(seed)` (`run.py:99`) rejects seeds outside
`[0, 2^32)` with a `ValueError`; otherwise it only mutates global RNG
state, which nothing downstream reads. -/
def seedCheck (seed : ℤ) : Except PipeError Unit :=
  if 0 ≤ seed ∧ seed < 2 ^ 32 then .ok ()
  else .error (.valueError "Seed must be between 0 and 2**32 - 1")

/-- `int((time.time() - start_time) * 1000)` (`run.py:120`): elapsed
wall-clock milliseconds, truncated to an integer (times are
non-negative and monotone, so `int` truncation is a floor). -/
def latencyMs (t0 t1 : ℚ) : ℤ := ⌊(t1 - t0) * 1000⌋

/-- The fields of the success output (`run.py:126-134`) apart from
`metric` and `status`, which are the literals `"signal_rate"` and
`"success"`, and of the error output (`run.py:75-82`). -/
inductive Output
  | success (version : String) (rows_processed : ℕ) (value : ℚ)
      (latency_ms : ℤ) (seed : ℤ)
  | error (version : YamlVal) (error_message : String)
  deriving DecidableEq, Repr

/-- The `try` body of `main` (`run.py:92-134`) up to the output record:
load config, seed the RNG, load data, compute the derived columns and
the metric. -/
def pipelineCore (cfgSrc : ConfigSource) (dataSrc : CsvSource) :
    Except PipeError (String × ℕ × ℚ × ℤ) := do
  let cfg ← load_config cfgSrc
  seedCheck cfg.seed
  let df ← load_data dataSrc
  let close ← extractClose df
  let rm := rollingMean cfg.window close
  let sig := signalCol close rm
  .ok (cfg.version, df.rows.length, signalRate sig, cfg.seed)

/-- The best-effort recovery of `version` on the error path
(`run.py:147-152`): `"unknown"` unless the config file exists, parses,
and its mapping has a `version` key — whose value is used as-is, with
no type check. -/
def recoverVersion (cfgSrc : ConfigSource) : YamlVal :=
  match cfgSrc with
  | .absent => .yStr "unknown"
  | .parsed none => .yStr "unknown"
  | .parsed (some m) =>
    match m.lookup "version" with
    | some v => v
    | none => .yStr "unknown"

/-- `main` (`run.py:85-157`) as a function of the two file states and
the two wall-clock readings: the success output on the happy path, the
error output (with the best-effort version) on any caught failure. -/
def mainRun (cfgSrc : ConfigSource) (dataSrc : CsvSource) (t0 t1 : ℚ) :
    Output :=
  match pipelineCore cfgSrc dataSrc with
  | .ok (version, rows, rate, seed) =>
    .success version rows (round4 rate) (latencyMs t0 t1) seed
  | .error e =>
    .error (recoverVersion cfgSrc)
      (match e with
       | .fileNotFound msg => msg
       | .valueError msg => msg
       | .typeError msg => msg)

/-- Erase the one time-dependent field, for stating determinism of
everything else. -/
def stripLatency : Output → Output
  | .success v r val _ s => .success v r val 0 s
  | .error v m => .error v m

/-- The scenario configuration of the spec's test section:
`{seed: 42, window: 3, version: "v1"}`. -/
def scenarioConfig : ConfigSource :=
  .parsed (some [("seed", .yInt 42), ("window", .yInt 3), ("version", .yStr "v1")])

/-- The scenario input of the spec's test section:
a `close` column holding `[10, 20, 30, 40, 20]`. -/
def scenarioData : CsvSource :=
  .table ⟨["close"], [[.num 10], [.num 20], [.num 30], [.num 40], [.num 20]]⟩

/-- The scenario close prices as a list of rationals. -/
def scenarioClose : List ℚ := [10, 20, 30, 40, 20]

/-! ## Helper lemmas -/

theorem rollingMean_getElem (w : ℕ) (close : List ℚ) (i : ℕ) (hi : i < close.length) :
    (rollingMean w close)[i]? =
      some (if w ≤ i + 1 then some ((windowSlice w close i).sum / w) else none) := by
  simp [rollingMean, List.getElem?_map, List.getElem?_range, hi]

theorem rollingMean_getD (w : ℕ) (close : List ℚ) (i : ℕ) (hi : i < close.length) :
    (rollingMean w close).getD i none =
      if w ≤ i + 1 then some ((windowSlice w close i).sum / w) else none := by
  simp [List.getD_eq_getElem?_getD, rollingMean_getElem w close i hi]

theorem windowSlice_eq_map (w : ℕ) (close : List ℚ) (i : ℕ)
    (h1 : w ≤ i + 1) (h2 : i < close.length) :
    windowSlice w close i = (List.range w).map fun j => close.getD (i + 1 - w + j) 0 := by
  apply List.ext_getElem?
  intro n
  rw [windowSlice, List.getElem?_drop, List.getElem?_take, List.getElem?_map]
  by_cases hn : n < w
  · rw [List.getElem?_range hn]
    have hlt : i + 1 - w + n < i + 1 := by omega
    have hin : i + 1 - w + n < close.length := by omega
    simp [hlt, List.getElem?_eq_getElem hin, List.getD_eq_getElem?_getD]
  · have hr : (List.range w)[n]? = none := by
      apply List.getElem?_eq_none
      simpa using Nat.le_of_not_lt hn
    have hlt : ¬ (i + 1 - w + n < i + 1) := by omega
    simp [hr, hlt]

theorem signalCol_getD (close : List ℚ) (rm : List (Option ℚ)) (i : ℕ)
    (hi : i < close.length) :
    (signalCol close rm).getD i 0 =
      match rm.getD i none with
      | some m => if m < close.getD i 0 then 1 else 0
      | none => 0 := by
  simp [signalCol, List.getD_eq_getElem?_getD, List.getElem?_map, List.getElem?_range, hi]

theorem signalCol_length (close : List ℚ) (rm : List (Option ℚ)) :
    (signalCol close rm).length = close.length := by
  simp [signalCol]

theorem signalCol_mem (close : List ℚ) (rm : List (Option ℚ)) (x : ℕ)
    (hx : x ∈ signalCol close rm) : x = 0 ∨ x = 1 := by
  simp only [signalCol, List.mem_map] at hx
  obtain ⟨i, -, hi⟩ := hx
  cases h : rm.getD i none with
  | none =>
    rw [h] at hi
    simp only at hi
    omega
  | some m =>
    rw [h] at hi
    simp only at hi
    split_ifs at hi <;> omega

theorem sum_eq_count_one (l : List ℕ) (h : ∀ x ∈ l, x = 0 ∨ x = 1) :
    l.sum = l.count 1 := by
  induction l with
  | nil => rfl
  | cons a t ih =>
    have ha := h a (List.mem_cons_self a t)
    have ht := ih fun x hx => h x (List.mem_cons_of_mem a hx)
    rcases ha with h0 | h1 <;> subst a <;> simp [List.count_cons, ht, Nat.add_comm]

theorem load_config_scenario : load_config scenarioConfig = .ok ⟨42, 3, "v1"⟩ := rfl

theorem load_data_scenario : load_data scenarioData =
    .ok ⟨["close"], [[.num 10], [.num 20], [.num 30], [.num 40], [.num 20]]⟩ := rfl

theorem extractClose_scenario :
    extractClose ⟨["close"], [[.num 10], [.num 20], [.num 30], [.num 40], [.num 20]]⟩ =
      .ok scenarioClose := rfl

theorem rollingMean_scenario :
    rollingMean 3 scenarioClose = [none, none, some 20, some 30, some 30] := by
  norm_num [scenarioClose, rollingMean, windowSlice, List.range_succ]

theorem signalCol_scenario :
    signalCol scenarioClose (rollingMean 3 scenarioClose) = [0, 0, 1, 1, 0] := by
  norm_num [scenarioClose, signalCol, rollingMean, windowSlice, List.range_succ]

theorem mainRun_scenario :
    mainRun scenarioConfig scenarioData 0 0 = .success "v1" 5 (2 / 5) 0 42 := by
  have hrate : signalRate (signalCol scenarioClose (rollingMean 3 scenarioClose)) = 2 / 5 := by
    rw [signalCol_scenario]
    norm_num [signalRate]
  unfold mainRun pipelineCore
  rw [load_config_scenario]
  simp only [Bind.bind, Except.bind, load_data_scenario, extractClose_scenario,
    seedCheck, hrate]
  norm_num [round4, round_eq, latencyMs]

/-! ## Claim theorems -/

/-- Claim C1, counterexample: on the spec's own scenario
(`window = 3`, `close = [10,20,30,40,20]`) the code's `signal_rate` is
`2/5` — every row counts in the denominator and the warm-up rows count
as `0` — while the mean over only the defined signal entries is `2/3`.
The claim that the reported rate equals the defined-entries mean is
false. -/
theorem signalRate_defined_only_cex :
    signalRate (signalCol scenarioClose (rollingMean 3 scenarioClose)) = 2 / 5
    ∧ signalRateSpec (signalColSpec scenarioClose (rollingMean 3 scenarioClose)) = 2 / 3
    ∧ signalRate (signalCol scenarioClose (rollingMean 3 scenarioClose)) ≠
        signalRateSpec (signalColSpec scenarioClose (rollingMean 3 scenarioClose)) := by
  have h1 : signalRate (signalCol scenarioClose (rollingMean 3 scenarioClose)) = 2 / 5 := by
    norm_num [scenarioClose, signalRate, signalCol, rollingMean, windowSlice,
      List.range_succ]
  have h2 : signalRateSpec (signalColSpec scenarioClose (rollingMean 3 scenarioClose)) =
      2 / 3 := by
    norm_num [scenarioClose, signalRateSpec, signalColSpec, rollingMean, windowSlice,
      List.range_succ, List.filterMap_cons]
  refine ⟨h1, h2, ?_⟩
  rw [h1, h2]
  norm_num

/-- Claim C1, amended: the reported `signal_rate` is the number of rows
whose signal is `1` divided by the total row count — the `astype(int)`
cast makes the warm-up rows ordinary `0` entries, so they stay in the
denominator instead of being excluded from the average. -/
theorem signalRate_counts_all_rows (w : ℕ) (close : List ℚ) :
    signalRate (signalCol close (rollingMean w close)) =
      ((signalCol close (rollingMean w close)).count 1 : ℚ) / close.length := by
  rw [signalRate, sum_eq_count_one _ (fun x hx => signalCol_mem _ _ x hx), signalCol_length]

/-- Claim C2, counterexample: index `1` is a warm-up index for
`window = 3` (`1 < 3 - 1`), yet the signal column holds the value `0`
there, not null — `astype(int)` turns the `NaN` comparison's `False`
into `0`. -/
theorem signal_warmup_cex :
    1 < 3 - 1 ∧ (signalCol scenarioClose (rollingMean 3 scenarioClose))[1]? = some 0 := by
  refine ⟨by norm_num, ?_⟩
  rw [signalCol_scenario]
  rfl

/-- Claim C2, amended: the signal column is defined (integer-valued) at
every index of the dataset, and at each warm-up index `i < window - 1`
it holds `0`, because the comparison of `close[i]` against the
undefined rolling mean evaluates to false. -/
theorem signal_total_and_warmup_zero (w : ℕ) (close : List ℚ) :
    (signalCol close (rollingMean w close)).length = close.length
    ∧ ∀ i, i + 1 < w → i < close.length →
        (signalCol close (rollingMean w close))[i]? = some 0 := by
  refine ⟨signalCol_length close _, fun i hiw hi => ?_⟩
  have hrm : (rollingMean w close)[i]?.getD none = none := by
    rw [← List.getD_eq_getElem?_getD, rollingMean_getD w close i hi, if_neg (by omega)]
  simp [signalCol, List.getElem?_map, List.getElem?_range, hi, hrm]

/-- Witness for the amended C2 at `window = 3`,
`close = [10,20,30,40,20]`, warm-up index `0`. -/
theorem signal_total_and_warmup_zero_witness :
    (signalCol scenarioClose (rollingMean 3 scenarioClose))[0]? = some 0 :=
  (signal_total_and_warmup_zero 3 scenarioClose).2 0 (by norm_num)
    (by norm_num [scenarioClose])

/-- Claim C3, counterexample: the scenario run reports the value `2/5`
(`0.4`), not `0.3333` — the three defined signals `1, 1, 0` are averaged
together with the two warm-up zeros. -/
theorem scenario_value_cex :
    mainRun scenarioConfig scenarioData 0 0 = .success "v1" 5 (2 / 5) 0 42
    ∧ ((2 : ℚ) / 5) ≠ 3333 / 10000 := by
  refine ⟨mainRun_scenario, by norm_num⟩

/-- Claim C3, amended: the scenario with config
`{seed: 42, window: 3, version: "v1"}` and `close = [10,20,30,40,20]`
yields `rolling_mean = [_,_,20,30,30]`, `signal = [0,0,1,1,0]` (the
warm-up entries are `0`, not null), reported value `0.4`,
`rows_processed = 5` and a success status. -/
theorem scenario_run :
    rollingMean 3 scenarioClose = [none, none, some 20, some 30, some 30]
    ∧ signalCol scenarioClose (rollingMean 3 scenarioClose) = [0, 0, 1, 1, 0]
    ∧ mainRun scenarioConfig scenarioData 0 0 = .success "v1" 5 (2 / 5) 0 42 :=
  ⟨rollingMean_scenario, signalCol_scenario, mainRun_scenario⟩

/-- Claim C4: for a positive window `w`, `rolling_mean[i]` is defined
exactly when `i ≥ w - 1` (that is, `w ≤ i + 1`), and then equals the
arithmetic mean of the `w` values `close[i-w+1] .. close[i]`; moreover
it depends only on the first `i + 1` entries of the series — no
look-ahead. -/
theorem rollingMean_spec (w : ℕ) (close : List ℚ) (i : ℕ)
    (_hw : 0 < w) (hi : i < close.length) :
    ((rollingMean w close).getD i none =
      if w ≤ i + 1 then
        some ((∑ j ∈ Finset.range w, close.getD (i + 1 - w + j) 0) / w)
      else none)
    ∧ ∀ close₂ : List ℚ, i < close₂.length →
        close.take (i + 1) = close₂.take (i + 1) →
        (rollingMean w close).getD i none = (rollingMean w close₂).getD i none := by
  constructor
  · rw [rollingMean_getD w close i hi]
    by_cases h : w ≤ i + 1
    · rw [if_pos h, if_pos h, windowSlice_eq_map w close i h hi]
      rfl
    · rw [if_neg h, if_neg h]
  · intro close₂ hi₂ htake
    rw [rollingMean_getD w close i hi, rollingMean_getD w close₂ i hi₂]
    unfold windowSlice
    rw [htake]

/-- Witness for C4 at `w = 3`, `close = [10,20,30,40,20]`, `i = 2`. -/
theorem rollingMean_spec_witness :
    (rollingMean 3 scenarioClose).getD 2 none =
      if 3 ≤ 2 + 1 then
        some ((∑ j ∈ Finset.range 3, scenarioClose.getD (2 + 1 - 3 + j) 0) / 3)
      else none :=
  (rollingMean_spec 3 scenarioClose 2 (by norm_num) (by norm_num [scenarioClose])).1

/-- Claim C5: wherever the rolling mean is defined with value `m`, the
signal is `1` when `close[i] > m` and `0` otherwise (so `0` on
equality). -/
theorem signal_rule (w : ℕ) (close : List ℚ) (i : ℕ) (m : ℚ)
    (hi : i < close.length)
    (hm : (rollingMean w close).getD i none = some m) :
    (signalCol close (rollingMean w close)).getD i 0 =
      if close.getD i 0 > m then 1 else 0 := by
  rw [signalCol_getD close _ i hi, hm]

/-- Witness for C5 at the scenario input, index `2`
(`close[2] = 30 > 20`, signal `1`). -/
theorem signal_rule_witness :
    (signalCol scenarioClose (rollingMean 3 scenarioClose)).getD 2 0 =
      if scenarioClose.getD 2 0 > 20 then 1 else 0 :=
  signal_rule 3 scenarioClose 2 20 (by norm_num [scenarioClose])
    (by norm_num [scenarioClose, rollingMean, windowSlice, List.range_succ])

/-- Claim C6: a parsed configuration mapping lacking at least one of
`seed`, `window`, `version` is rejected with
`ValueError("Missing config key: <key>")`, where `<key>` is the first
missing key in the fixed check order `seed`, `window`, `version`. -/
theorem load_config_missing_key (m : List (String × YamlVal))
    (h : (m.lookup "seed").isNone = true ∨ (m.lookup "window").isNone = true ∨
      (m.lookup "version").isNone = true) :
    load_config (.parsed (some m)) =
      .error (.valueError ("Missing config key: " ++
        (if (m.lookup "seed").isNone then "seed"
         else if (m.lookup "window").isNone then "window"
         else "version"))) := by
  by_cases hs : (m.lookup "seed").isNone
  · simp [load_config, checkRequiredKeys, hs, Bind.bind, Except.bind]
  · by_cases hw : (m.lookup "window").isNone
    · simp [load_config, checkRequiredKeys, hs, hw, Bind.bind, Except.bind]
    · have hv : (m.lookup "version").isNone = true := by
        rcases h with h | h | h
        · exact absurd h hs
        · exact absurd h hw
        · exact h
      simp [load_config, checkRequiredKeys, hs, hw, hv, Bind.bind, Except.bind]

/-- Witness for C6: a mapping holding only `window` is rejected for the
missing `seed`, the first key in the check order. -/
theorem load_config_missing_key_witness :
    load_config (.parsed (some [("window", YamlVal.yInt 1)])) =
      .error (.valueError ("Missing config key: " ++
        (if (List.lookup "seed" [("window", YamlVal.yInt 1)]).isNone then "seed"
         else if (List.lookup "window" [("window", YamlVal.yInt 1)]).isNone then "window"
         else "version"))) :=
  load_config_missing_key [("window", .yInt 1)] (Or.inl (by decide))

/-- Claim C7: `load_data` checks, in order: path existence
(`NotFoundError`), CSV parsability (`Invalid CSV file format`),
non-emptiness (`Input CSV file is empty`), and presence of the `close`
column (`Missing required column: close`); when all pass it returns the
dataset unchanged.  The empty check preceding the column check is what
the third conjunct pins down: it fires whether or not `close` is
present. -/
theorem load_data_checks :
    load_data .absent = .error (.fileNotFound "Input CSV file not found")
    ∧ load_data .malformed = .error (.valueError "Invalid CSV file format")
    ∧ (∀ df : DataFrame, df.rows = [] →
        load_data (.table df) = .error (.valueError "Input CSV file is empty"))
    ∧ (∀ df : DataFrame, df.rows ≠ [] → "close" ∉ df.cols →
        load_data (.table df) = .error (.valueError "Missing required column: close"))
    ∧ (∀ df : DataFrame, df.rows ≠ [] → "close" ∈ df.cols →
        load_data (.table df) = .ok df) := by
  refine ⟨rfl, rfl, fun df h => ?_, fun df h1 h2 => ?_, fun df h1 h2 => ?_⟩
  · simp [load_data, h]
  · simp [load_data, h1, h2]
  · simp [load_data, h1, h2]

/-- Witness for C7: a table with no `close` column and zero rows is
reported as empty — the emptiness check runs before the column
check. -/
theorem load_data_checks_witness :
    load_data (.table ⟨["open"], []⟩) = .error (.valueError "Input CSV file is empty") :=
  load_data_checks.2.2.1 ⟨["open"], []⟩ rfl

/-- Claim C8: with the input file state and config file state fixed, the
pipeline's output is the same whatever the two wall-clock readings are,
once the single time-derived field `latency_ms` is erased — every other
reported field is a deterministic function of the inputs. -/
theorem mainRun_deterministic (cfgSrc : ConfigSource) (dataSrc : CsvSource)
    (t0 t1 u0 u1 : ℚ) :
    stripLatency (mainRun cfgSrc dataSrc t0 t1) =
      stripLatency (mainRun cfgSrc dataSrc u0 u1) := by
  unfold mainRun
  cases pipelineCore cfgSrc dataSrc with
  | ok v => obtain ⟨a, b, c, d⟩ := v; rfl
  | error e => rfl

/-- Claim C9: `load_data` accepts a table whose `close` column holds a
non-numeric value — the loader never inspects the column's cells — and
the failure only surfaces later, when the rolling-mean step must read
the column as numbers. -/
theorem load_data_no_close_validation :
    load_data (.table ⟨["close"], [[.str "abc"], [.num 5]]⟩) =
      .ok ⟨["close"], [[.str "abc"], [.num 5]]⟩
    ∧ extractClose ⟨["close"], [[.str "abc"], [.num 5]]⟩ =
      .error (.typeError "cannot aggregate non-numeric values") :=
  ⟨rfl, rfl⟩

/-- Claim C10: for a config whose `version` is the integer `7`,
`load_config` fails with `Version must be string`, yet the error
report's `version` field holds the integer `7` read back from the file
with no type check — not the fallback `"unknown"`. -/
theorem error_report_version_unvalidated :
    load_config (.parsed (some [("seed", .yInt 0), ("window", .yInt 3), ("version", .yInt 7)])) =
      .error (.valueError "Version must be string")
    ∧ mainRun (.parsed (some [("seed", .yInt 0), ("window", .yInt 3), ("version", .yInt 7)]))
        scenarioData 0 0 = .error (.yInt 7) "Version must be string"
    ∧ YamlVal.yInt 7 ≠ YamlVal.yStr "unknown" :=
  ⟨rfl, rfl, by decide⟩

end MLOpsPipeline
